import Mathlib

/-!
Verification development for the BabelScribe streaming-transcription hook
(`src/src/hooks/useRealtimeTranscription.ts`).

The definitions below are a shallow embedding of that file:
* the `Transcript` record and the transcript-list mutations
  (`applyTranslationUpdate`, `translateTranscript`, `deleteTranscript`),
* the static language tables (`getLanguageName`, `mapToLanguageCode`,
  `getLanguageNameFromCode`),
* the finalized-transcription message handler (`handleCompleted`) together
  with its auto-translation dispatch (`autoTranslationFor`),
* the session/timer state machine (`SysState`, `sysStep`) covering
  `commit`, `startAutoCommitTimer`, `resetAutoCommitTimer`, the inline
  deadline handler, and the recording lifecycle events.

JavaScript-specific behaviour is modelled explicitly: string truthiness
(`jsOrElse`, `truthyStr`), and `undefined` fields as `Option`.
-/

namespace BabelScribe

/-- Token/confidence pair carried on a transcript (interface `TokenLogprob`).
The numeric confidence value is never inspected by the hook's logic, only
carried along, so it is kept as an uninterpreted `Int` scaled value here. -/
structure TokenLogprob where
  token : String
  logprob : Int
  bytes : Option (List Nat) := none
deriving Repr, DecidableEq

/-- One finalized utterance (interface `Transcript`).  `timestamp` is the
`Date` creation instant, modelled as a natural tick.  Optional fields are
`undefined`-able fields of the source interface. -/
structure Transcript where
  id : String
  timestamp : Nat
  text : String
  originalText : Option String := none
  detectedLanguage : Option String := none
  detectedLanguageName : Option String := none
  logprobs : Option (List TokenLogprob) := none
deriving Repr, DecidableEq

/-- JavaScript `String.prototype.trim()`: removes whitespace from both
ends of the string.  Defined structurally over the character list so that
it evaluates inside the kernel. -/
def jsTrim (s : String) : String :=
  String.mk
    (((s.data.dropWhile Char.isWhitespace).reverse.dropWhile
        Char.isWhitespace).reverse)

/-- JavaScript `a || b` where `a` is a possibly-`undefined` string: the
result is `b` exactly when `a` is `undefined` or the empty string (both
falsy in JS).  Used for `item.originalText || item.text` in both
translation completion handlers. -/
def jsOrElse (a : Option String) (b : String) : String :=
  match a with
  | some s => if s = "" then b else s
  | none => b

/-- JavaScript truthiness of a possibly-`undefined` string (used for the
`mappedLangCode && languageA && languageB` guard). -/
def truthyStr : Option String → Bool
  | some s => s ≠ ""
  | none => false

/-- Translation-completion update applied to the transcript list, shared
shape of the `setFinalTranscripts(prev => prev.map(...))` calls in
`performAutoTranslation` (lines 246-258) and `translateTranscript`
(lines 454-464).  The update runs only when the trimmed translated text is
non-empty (`if (translatedText)`); it rewrites `text` to
`"<translated> (<target>)"` and sets `originalText` to
`item.originalText || item.text`.  The auto path's extra
`logprobs: item.logprobs` field write is the identity the record spread
already performs, so both paths reduce to this one function. -/
def translationItemUpdate (transcriptId translatedText targetLangName : String)
    (item : Transcript) : Transcript :=
  if item.id = transcriptId then
    { item with
      text := translatedText ++ " (" ++ targetLangName ++ ")"
      originalText := some (jsOrElse item.originalText item.text) }
  else item

/-- List-level form of the translation completion: the `prev.map(...)`
guarded by `if (translatedText)`. -/
def applyTranslationUpdate (transcriptId translatedText targetLangName : String)
    (ts : List Transcript) : List Transcript :=
  if translatedText = "" then ts
  else ts.map (translationItemUpdate transcriptId translatedText targetLangName)

/-- A sequence of translation completions (auto or explicit, in any order),
each given by `(transcriptId, translatedText, targetLangName)`, applied
left to right. -/
def runTranslations (ops : List (String × String × String))
    (ts : List Transcript) : List Transcript :=
  ops.foldl (fun acc op => applyTranslationUpdate op.1 op.2.1 op.2.2 acc) ts

/-- Response of the chat-completions service as the hook observes it:
`ok`/`status`/`errText` from the HTTP layer and
`data.choices?.[0]?.message?.content` as an optional string. -/
structure ChatResponse where
  ok : Bool
  status : Nat
  errText : String := ""
  content : Option String := none
deriving Repr, DecidableEq

/-- Translated text extracted from a response:
`data.choices?.[0]?.message?.content?.trim() || ''` (lines 241 and 451). -/
def respTranslatedText (r : ChatResponse) : String :=
  match r.content with
  | some c => jsTrim c
  | none => ""

/-- The `textToTranslate` computed at line 423 of `translateTranscript` for
a given list and id: `transcript.originalText || transcript.text` of the
transcript found by id, `none` when no transcript matches. -/
def textToTranslateOf (ts : List Transcript) (transcriptId : String) :
    Option String :=
  (ts.find? fun t => t.id = transcriptId).map fun t =>
    jsOrElse t.originalText t.text

/-- Explicit user-invoked translation (`translateTranscript`, lines
410-467), with the network call abstracted into the supplied
`ChatResponse`.  Returns the transcript list after the call together with
either the returned translated text or the thrown error message.  Every
error path leaves the list untouched. -/
def translateTranscript (apiKey : String) (ts : List Transcript)
    (transcriptId targetLangName : String) (resp : ChatResponse) :
    List Transcript × Except String String :=
  if apiKey = "" then
    (ts, Except.error "API key is not set.")
  else
    match ts.find? (fun t => t.id = transcriptId) with
    | none => (ts, Except.error "Transcript not found.")
    | some _ =>
      if resp.ok then
        let translatedText := respTranslatedText resp
        (applyTranslationUpdate transcriptId translatedText targetLangName ts,
         Except.ok translatedText)
      else
        (ts, Except.error
          ("OpenAI API error: " ++ toString resp.status ++ " " ++ resp.errText))

/-- Deletion of one transcript by id (`deleteTranscript`, lines 471-473):
`prev.filter(t => t.id !== transcriptId)`. -/
def deleteTranscript (transcriptId : String) (ts : List Transcript) :
    List Transcript :=
  ts.filter fun t => t.id ≠ transcriptId

/-- Removal of all transcripts (`clearAllTranscripts`, lines 475-477). -/
def clearAllTranscripts (_ts : List Transcript) : List Transcript := []

/-- Static table mapping franc ISO-639-3 codes to readable names
(`getLanguageName`, lines 60-105); unknown codes fall back to
`isoCode.toUpperCase()`. -/
def getLanguageName (isoCode : String) : String :=
  match isoCode with
  | "eng" => "English"
  | "spa" => "Spanish"
  | "fra" => "French"
  | "deu" => "German"
  | "ita" => "Italian"
  | "por" => "Portuguese"
  | "rus" => "Russian"
  | "jpn" => "Japanese"
  | "kor" => "Korean"
  | "cmn" => "Chinese"
  | "ara" => "Arabic"
  | "hin" => "Hindi"
  | "nld" => "Dutch"
  | "swe" => "Swedish"
  | "nor" => "Norwegian"
  | "dan" => "Danish"
  | "fin" => "Finnish"
  | "pol" => "Polish"
  | "ces" => "Czech"
  | "hun" => "Hungarian"
  | "ron" => "Romanian"
  | "bul" => "Bulgarian"
  | "hrv" => "Croatian"
  | "slk" => "Slovak"
  | "slv" => "Slovenian"
  | "est" => "Estonian"
  | "lav" => "Latvian"
  | "lit" => "Lithuanian"
  | "ell" => "Greek"
  | "tur" => "Turkish"
  | "heb" => "Hebrew"
  | "tha" => "Thai"
  | "vie" => "Vietnamese"
  | "ind" => "Indonesian"
  | "msa" => "Malay"
  | "tgl" => "Filipino"
  | "ukr" => "Ukrainian"
  | "cat" => "Catalan"
  | "eus" => "Basque"
  | "glg" => "Galician"
  | "und" => "Unknown"
  | _ => isoCode.toUpper

/-- Bridging table from franc ISO-639-3 codes to the two-letter
language-selector vocabulary (`mapToLanguageCode`, lines 108-152); codes
absent from the table map to `null`. -/
def mapToLanguageCode (francCode : String) : Option String :=
  match francCode with
  | "eng" => some "en"
  | "spa" => some "es"
  | "fra" => some "fr"
  | "deu" => some "de"
  | "ita" => some "it"
  | "por" => some "pt"
  | "rus" => some "ru"
  | "jpn" => some "ja"
  | "kor" => some "ko"
  | "cmn" => some "zh"
  | "ara" => some "ar"
  | "hin" => some "hi"
  | "nld" => some "nl"
  | "swe" => some "sv"
  | "nor" => some "no"
  | "dan" => some "da"
  | "fin" => some "fi"
  | "pol" => some "pl"
  | "ces" => some "cs"
  | "hun" => some "hu"
  | "ron" => some "ro"
  | "bul" => some "bg"
  | "hrv" => some "hr"
  | "slk" => some "sk"
  | "slv" => some "sl"
  | "est" => some "et"
  | "lav" => some "lv"
  | "lit" => some "lt"
  | "ell" => some "el"
  | "tur" => some "tr"
  | "heb" => some "he"
  | "tha" => some "th"
  | "vie" => some "vi"
  | "ind" => some "id"
  | "msa" => some "ms"
  | "tgl" => some "tl"
  | "ukr" => some "uk"
  | "cat" => some "ca"
  | "eus" => some "eu"
  | "glg" => some "gl"
  | _ => none

/-- Static table from two-letter selector codes to readable names
(`getLanguageNameFromCode`, lines 155-199); unknown codes fall back to
`langCode.toUpperCase()`. -/
def getLanguageNameFromCode (langCode : String) : String :=
  match langCode with
  | "en" => "English"
  | "es" => "Spanish"
  | "fr" => "French"
  | "de" => "German"
  | "it" => "Italian"
  | "pt" => "Portuguese"
  | "ru" => "Russian"
  | "ja" => "Japanese"
  | "ko" => "Korean"
  | "zh" => "Chinese"
  | "ar" => "Arabic"
  | "hi" => "Hindi"
  | "nl" => "Dutch"
  | "sv" => "Swedish"
  | "no" => "Norwegian"
  | "da" => "Danish"
  | "fi" => "Finnish"
  | "pl" => "Polish"
  | "cs" => "Czech"
  | "hu" => "Hungarian"
  | "ro" => "Romanian"
  | "bg" => "Bulgarian"
  | "hr" => "Croatian"
  | "sk" => "Slovak"
  | "sl" => "Slovenian"
  | "et" => "Estonian"
  | "lv" => "Latvian"
  | "lt" => "Lithuanian"
  | "el" => "Greek"
  | "tr" => "Turkish"
  | "he" => "Hebrew"
  | "th" => "Thai"
  | "vi" => "Vietnamese"
  | "id" => "Indonesian"
  | "ms" => "Malay"
  | "tl" => "Filipino"
  | "uk" => "Ukrainian"
  | "ca" => "Catalan"
  | "eu" => "Basque"
  | "gl" => "Galician"
  | _ => langCode.toUpper

/-- One auto-translation call scheduled by the completed-message handler:
the arguments of `performAutoTranslation(transcriptId, sourceText,
targetLangCode, targetLangName)`. -/
structure AutoTranslationRequest where
  transcriptId : String
  sourceText : String
  targetLangCode : String
  targetLangName : String
deriving Repr, DecidableEq

/-- Auto-translation dispatch of the completed-message handler
(lines 700-720): bridge the detected code with `mapToLanguageCode`, guard
on `mappedLangCode && languageA && languageB` (JS truthiness), then the
detected language matching Language B schedules a translation toward
Language A, else a match with Language A schedules one toward Language B,
else nothing.  Returns the list of scheduled `performAutoTranslation`
calls (empty or a singleton). -/
def autoTranslationFor (languageA languageB : Option String)
    (transcriptId sourceText detectedLangCode : String) :
    List AutoTranslationRequest :=
  match mapToLanguageCode detectedLangCode with
  | none => []
  | some mapped =>
    if truthyStr languageA ∧ truthyStr languageB then
      match languageA, languageB with
      | some la, some lb =>
        if mapped = lb then
          [⟨transcriptId, sourceText, la, getLanguageNameFromCode la⟩]
        else if mapped = la then
          [⟨transcriptId, sourceText, lb, getLanguageNameFromCode lb⟩]
        else []
      | _, _ => []
    else []

/-- Transcript-list state touched by the inbound message handler:
the `finalTranscripts` list (newest first) and the `interimTranscript`
buffer. -/
structure HandlerState where
  finalTranscripts : List Transcript
  interimTranscript : String
deriving Repr, DecidableEq

/-- Handler for one `conversation.item.input_audio_transcription.completed`
event (lines 601-730).  `det` is the statistical language detector
(`franc`), a pure function of the transcript text; `newId` and `now` stand
for the fresh `Date.now()+Math.random()` id and creation instant;
`logprobsFound` is the result of the speculative logprobs extraction
(lines 624-678), which only ever feeds the new record's `logprobs` field.
With non-empty trimmed text the handler creates one `Transcript`, prepends
it, clears the interim buffer, and schedules auto-translation of
`data.transcript.trim()`; with empty trimmed text it does nothing. -/
def handleCompleted (det : String → String)
    (languageA languageB : Option String) (newId : String) (now : Nat)
    (logprobsFound : Option (List TokenLogprob)) (transcriptMsg : String)
    (st : HandlerState) : HandlerState × List AutoTranslationRequest :=
  if jsTrim transcriptMsg = "" then (st, [])
  else
    let detectedLangCode := det transcriptMsg
    let detectedLangName := getLanguageName detectedLangCode
    let newTranscript : Transcript :=
      { id := newId
        timestamp := now
        text := jsTrim transcriptMsg
        detectedLanguage := some detectedLangCode
        detectedLanguageName := some detectedLangName
        logprobs := logprobsFound }
    ({ finalTranscripts := newTranscript :: st.finalTranscripts
       interimTranscript := "" },
     autoTranslationFor languageA languageB newId (jsTrim transcriptMsg)
       detectedLangCode)

/-- Handler for one `conversation.item.input_audio_transcription.delta`
event (lines 591-600) restricted to the transcript-list state: a truthy
delta is appended to the interim buffer, otherwise nothing changes. -/
def handleDelta (delta : String) (st : HandlerState) : HandlerState :=
  if delta = "" then st
  else { st with interimTranscript := st.interimTranscript ++ delta }

/-- Processing of a sequence of completed events, threading an index used
to keep the generated ids distinct (`ids`/`stamps`/`lps` supply the
per-event id, instant and extracted logprobs). -/
def runCompletedEventsFrom (det : String → String)
    (languageA languageB : Option String) (ids : Nat → String)
    (stamps : Nat → Nat) (lps : Nat → Option (List TokenLogprob)) :
    Nat → List String → HandlerState → HandlerState
  | _, [], st => st
  | i, ev :: rest, st =>
    runCompletedEventsFrom det languageA languageB ids stamps lps (i + 1) rest
      (handleCompleted det languageA languageB (ids i) (stamps i) (lps i) ev
        st).1

/-- Number of events of a sequence whose trimmed text is non-empty. -/
def countNonEmptyEvents (events : List String) : Nat :=
  (events.filter fun ev => jsTrim ev ≠ "").length

/-- Outbound protocol messages the session sends over the socket. -/
inductive OutMsg where
  | sessionConfig
  | audioAppend
  | commitBuffer
deriving Repr, DecidableEq

/-- Session/timer state of the hook: the socket handle (`wsRef`, collapsed
to whether it is in the OPEN state), the `isRecording` flag (the state and
its mirror ref, which the effect at lines 269-271 keeps equal), the chunk
counter `audioChunksSinceLastCommit`, the `hasSentAudio` flag, whether the
deadline timeout (`commitTimeoutRef`) and the 1 Hz countdown interval
(`countdownIntervalRef`) are currently scheduled, the displayed
`autoCommitCountdown`, and whether a 100 ms grace re-arm `setTimeout` from
the deadline handler or `manualCommit` is pending. -/
structure SysState where
  wsOpen : Bool
  isRecording : Bool
  audioChunksSinceLastCommit : Nat
  hasSentAudio : Bool
  commitTimeoutSet : Bool
  countdownIntervalSet : Bool
  autoCommitCountdown : Int
  gracePending : Bool
deriving Repr, DecidableEq

/-- Initial hook state: no socket, not recording, no timers, countdown 0. -/
def initState : SysState :=
  { wsOpen := false
    isRecording := false
    audioChunksSinceLastCommit := 0
    hasSentAudio := false
    commitTimeoutSet := false
    countdownIntervalSet := false
    autoCommitCountdown := 0
    gracePending := false }

/-- Minimum buffered chunks before a commit is sent
(`MIN_CHUNKS_FOR_100MS`, lines 302, 337, 378). -/
def MIN_CHUNKS_FOR_100MS : Nat := 1

/-- Countdown update of one 1 Hz tick
(`prev <= 1 ? 0 : prev - 1`, lines 288-294 and 365-371). -/
def countdownTick (prev : Int) : Int :=
  if prev ≤ 1 then 0 else prev - 1

/-- Teardown of the countdown interval (`clearCountdown`, lines 273-279):
clears the interval and resets the displayed countdown to 0. -/
def clearCountdown (s : SysState) : SysState :=
  { s with countdownIntervalSet := false, autoCommitCountdown := 0 }

/-- Conditional commit attempt shared by `commit` (lines 335-345) and the
inline copies in both deadline handlers (lines 301-313 and 377-389): with
an OPEN socket and at least `MIN_CHUNKS_FOR_100MS` buffered chunks it
sends one `input_audio_buffer.commit`, zeroes the chunk counter and clears
`hasSentAudio`; otherwise it sends nothing and changes nothing. -/
def commitCore (s : SysState) : SysState × List OutMsg :=
  if s.wsOpen then
    if MIN_CHUNKS_FOR_100MS ≤ s.audioChunksSinceLastCommit then
      ({ s with audioChunksSinceLastCommit := 0, hasSentAudio := false },
       [OutMsg.commitBuffer])
    else (s, [])
  else (s, [])

/-- Commit operation (`commit`, lines 334-355): the conditional send of
`commitCore`, then unconditionally clear the pending deadline timeout and
the countdown. -/
def commit (s : SysState) : SysState × List OutMsg :=
  (clearCountdown { (commitCore s).1 with commitTimeoutSet := false },
   (commitCore s).2)

/-- Arming of the Commit Scheduler (`startAutoCommitTimer`, lines
281-332): always (re)schedules the 10 s deadline timeout; starts the 1 Hz
countdown at 10 only when no countdown interval is already running. -/
def startAutoCommitTimer (s : SysState) : SysState :=
  if s.countdownIntervalSet then
    { s with commitTimeoutSet := true }
  else
    { s with
      commitTimeoutSet := true
      countdownIntervalSet := true
      autoCommitCountdown := 10 }

/-- Unconditional re-arm of the Commit Scheduler (`resetAutoCommitTimer`,
lines 357-408): tears down both timers, then restarts the countdown at 10
and schedules a fresh deadline timeout. -/
def resetAutoCommitTimer (s : SysState) : SysState :=
  let s1 := clearCountdown { s with commitTimeoutSet := false }
  { s1 with
    commitTimeoutSet := true
    countdownIntervalSet := true
    autoCommitCountdown := 10 }

/-- Body of the 10 s deadline timeout (identical inline blocks at lines
298-331 and 374-407): the conditional commit attempt, then clearing both
timers, then — if `isRecordingRef` still holds — scheduling the 100 ms
grace re-arm. -/
def deadlineHandler (s : SysState) : SysState × List OutMsg :=
  (if s.isRecording then
    { clearCountdown { (commitCore s).1 with commitTimeoutSet := false } with
      gracePending := true }
   else clearCountdown { (commitCore s).1 with commitTimeoutSet := false },
   (commitCore s).2)

/-- Concurrent event sources feeding the hook, serialized as the JS event
loop serializes them.  Timer callbacks (`deadlineFire`, `tick`,
`graceFire`) only run while their timer is scheduled; an event whose
guard fails leaves the state unchanged. -/
inductive Event where
  /-- Successful `startRecording` on a fresh socket, collapsed with its
  `onopen` callback (lines 505-580). -/
  | startNewSession
  /-- Successful `startRecording` reusing an OPEN socket (lines 509-521). -/
  | resumeRecording
  /-- Explicit `stopRecording` (lines 492-503). -/
  | stopRecording
  /-- The socket's `onclose` callback (lines 743-757). -/
  | wsClose
  /-- One `AudioRecord` data callback (lines 761-806). -/
  | audioChunk
  /-- One inbound delta message with truthy delta (lines 591-600). -/
  | deltaMsg
  /-- One inbound completed message; the flag tells whether its trimmed
  transcript text is non-empty (lines 601-730). -/
  | completedMsg (nonEmpty : Bool)
  /-- Explicit `manualCommit` (lines 479-490). -/
  | manualCommit
  /-- The deadline timeout firing. -/
  | deadlineFire
  /-- The 100 ms grace re-arm timeout firing. -/
  | graceFire
  /-- One 1 Hz countdown interval tick. -/
  | tick
deriving Repr, DecidableEq

/-- One serialized step of the hook.  Transcript-list effects of the
message handlers live in `HandlerState` (see `handleCompleted`); this
machine tracks their session/timer effects. -/
def sysStep (s : SysState) : Event → SysState × List OutMsg
  | Event.startNewSession =>
    -- `if (isRecording) return` (line 506); a fresh connection is only
    -- built when no OPEN socket exists (line 509); `onopen` sends the
    -- session config, sets recording and arms the scheduler.
    if s.isRecording ∨ s.wsOpen then (s, [])
    else
      (startAutoCommitTimer
        { s with wsOpen := true, isRecording := true, hasSentAudio := false },
       [OutMsg.sessionConfig])
  | Event.resumeRecording =>
    if s.isRecording ∨ ¬s.wsOpen then (s, [])
    else
      (startAutoCommitTimer { s with isRecording := true, hasSentAudio := false },
       [])
  | Event.stopRecording =>
    -- `if (!isRecording) return` (line 493), then recording is cleared and
    -- `commit()` runs, which also clears the timers.
    if s.isRecording then commit { s with isRecording := false } else (s, [])
  | Event.wsClose =>
    if s.wsOpen then
      (clearCountdown
        { s with wsOpen := false, isRecording := false, commitTimeoutSet := false },
       [])
    else (s, [])
  | Event.audioChunk =>
    -- The data callback returns early unless the socket is OPEN (line
    -- 763); otherwise it appends one frame, marks audio sent, and bumps
    -- the chunk counter.  It does not consult the recording flag.
    if s.wsOpen then
      ({ s with
          audioChunksSinceLastCommit := s.audioChunksSinceLastCommit + 1
          hasSentAudio := true },
       [OutMsg.audioAppend])
    else (s, [])
  | Event.deltaMsg =>
    if s.isRecording then (resetAutoCommitTimer s, []) else (s, [])
  | Event.completedMsg nonEmpty =>
    if nonEmpty ∧ s.isRecording then (resetAutoCommitTimer s, []) else (s, [])
  | Event.manualCommit =>
    -- `if (isRecordingRef.current)` guards the whole body; `commit()` then
    -- a 100 ms grace re-arm is scheduled (lines 479-490).
    if s.isRecording then
      ({ (commit s).1 with gracePending := true }, (commit s).2)
    else (s, [])
  | Event.deadlineFire =>
    if s.commitTimeoutSet then deadlineHandler s else (s, [])
  | Event.graceFire =>
    if s.gracePending then
      (if s.isRecording then
        startAutoCommitTimer { s with gracePending := false }
       else { s with gracePending := false }, [])
    else (s, [])
  | Event.tick =>
    if s.countdownIntervalSet then
      ({ s with autoCommitCountdown := countdownTick s.autoCommitCountdown },
       [])
    else (s, [])

/-- Run of the machine from a given state over a serialized event list. -/
def runFrom (s : SysState) (evs : List Event) : SysState :=
  evs.foldl (fun a e => (sysStep a e).1) s

/-- Run of the machine from the initial hook state. -/
def run (evs : List Event) : SysState :=
  runFrom initState evs

/-- Events that can (re)schedule the deadline timeout, delimiting an arm
cycle of the Commit Scheduler. -/
def armingEvent : Event → Bool
  | Event.startNewSession => true
  | Event.resumeRecording => true
  | Event.deltaMsg => true
  | Event.completedMsg _ => true
  | Event.graceFire => true
  | _ => false

/-- Number of deadline actions (deadline timeout callbacks that actually
run, i.e. fire while the timeout is scheduled) along an event list. -/
def deadlineActionCount : SysState → List Event → Nat
  | _, [] => 0
  | s, e :: rest =>
    (if e = Event.deadlineFire ∧ s.commitTimeoutSet then 1 else 0) +
      deadlineActionCount (sysStep s e).1 rest

/-! ## Claim theorems -/

/-- C10: `deleteTranscript(id)` removes exactly the transcript whose id
matches, leaving every other transcript and their relative order
unchanged; when no transcript carries the id the list is unchanged. -/
theorem deleteTranscript_exact (tid : String) (ts : List Transcript) :
    ((∀ t ∈ ts, t.id ≠ tid) → deleteTranscript tid ts = ts) ∧
    (∀ pre t post, (ts.map Transcript.id).Nodup → ts = pre ++ t :: post →
      t.id = tid → deleteTranscript tid ts = pre ++ post) := by
  constructor
  · intro h
    apply List.filter_eq_self.mpr
    intro t ht
    simpa using h t ht
  · intro pre t post hnd hts hid
    subst hts
    have hmem : t.id ∉ pre.map Transcript.id ++ post.map Transcript.id := by
      have h1 : (pre.map Transcript.id ++ t.id :: post.map Transcript.id).Nodup := by
        simpa using hnd
      have h2 := (List.nodup_middle).mp h1
      exact h2.not_mem
    rw [List.mem_append, not_or] at hmem
    unfold deleteTranscript
    rw [List.filter_append, List.filter_cons]
    have hpre : pre.filter (fun u => !decide (u.id = tid)) = pre := by
      apply List.filter_eq_self.mpr
      intro u hu
      have : u.id ≠ t.id := fun hc => hmem.1 (hc ▸ List.mem_map_of_mem _ hu)
      simpa [hid] using this
    have hpost : post.filter (fun u => !decide (u.id = tid)) = post := by
      apply List.filter_eq_self.mpr
      intro u hu
      have : u.id ≠ t.id := fun hc => hmem.2 (hc ▸ List.mem_map_of_mem _ hu)
      simpa [hid] using this
    simp [hid, hpre, hpost]

/-- Witness for C10 at a concrete two-element list: deleting a missing id
is the identity, and deleting the first element's id keeps only the
second. -/
theorem deleteTranscript_exact_witness :
    deleteTranscript "z"
        [{ id := "a", timestamp := 0, text := "x" },
         { id := "b", timestamp := 1, text := "y" }] =
      [{ id := "a", timestamp := 0, text := "x" },
       { id := "b", timestamp := 1, text := "y" }] ∧
    deleteTranscript "a"
        [{ id := "a", timestamp := 0, text := "x" },
         { id := "b", timestamp := 1, text := "y" }] =
      [{ id := "b", timestamp := 1, text := "y" }] := by
  refine ⟨?_, ?_⟩
  · exact (deleteTranscript_exact "z" _).1 (by decide)
  · exact (deleteTranscript_exact "a" _).2 []
      { id := "a", timestamp := 0, text := "x" }
      [{ id := "b", timestamp := 1, text := "y" }] (by decide) rfl rfl

/-- C5: explicit translation fails with the reportable error
"API key is not set." when the credential is absent, and with the
reportable error "Transcript not found." when no transcript carries the
requested id; both failures leave the transcript list completely
unchanged. -/
theorem translateTranscript_failure_frame (apiKey : String)
    (ts : List Transcript) (tid target : String) (resp : ChatResponse) :
    (apiKey = "" →
      translateTranscript apiKey ts tid target resp =
        (ts, Except.error "API key is not set.")) ∧
    (apiKey ≠ "" → (∀ t ∈ ts, t.id ≠ tid) →
      translateTranscript apiKey ts tid target resp =
        (ts, Except.error "Transcript not found.")) := by
  constructor
  · intro h
    simp [translateTranscript, h]
  · intro hk hnone
    have hfind : ts.find? (fun t => t.id = tid) = none := by
      apply List.find?_eq_none.mpr
      intro t ht
      simpa using hnone t ht
    simp [translateTranscript, hk, hfind]

/-- Witness for C5: both failure modes at concrete inputs. -/
theorem translateTranscript_failure_frame_witness :
    translateTranscript "" [{ id := "a", timestamp := 0, text := "x" }]
        "a" "German" { ok := true, status := 200 } =
      ([{ id := "a", timestamp := 0, text := "x" }],
       Except.error "API key is not set.") ∧
    translateTranscript "key" [{ id := "a", timestamp := 0, text := "x" }]
        "missing" "German" { ok := true, status := 200 } =
      ([{ id := "a", timestamp := 0, text := "x" }],
       Except.error "Transcript not found.") := by
  refine ⟨?_, ?_⟩
  · exact (translateTranscript_failure_frame "" _ "a" "German" _).1 rfl
  · exact (translateTranscript_failure_frame "key" _ "missing" "German" _).2
      (by decide) (by decide)

/-- C9: an explicit translate call whose service response trims to the
empty string succeeds with `Except.ok ""` and leaves the transcript list
(texts and `originalText` included) completely unchanged. -/
theorem translateTranscript_empty_response (apiKey : String)
    (ts : List Transcript) (tid target : String) (resp : ChatResponse)
    (hk : apiKey ≠ "")
    (hf : (ts.find? fun t => t.id = tid).isSome = true)
    (ho : resp.ok = true) (he : respTranslatedText resp = "") :
    translateTranscript apiKey ts tid target resp = (ts, Except.ok "") := by
  unfold translateTranscript
  rw [if_neg hk]
  cases hfind : ts.find? fun t => t.id = tid with
  | none => rw [hfind] at hf; cases hf
  | some t => simp [hfind, ho, he, applyTranslationUpdate]

/-- Witness for C9: a found transcript with an empty translation result is
returned as success with the list untouched. -/
theorem translateTranscript_empty_response_witness :
    translateTranscript "key" [{ id := "a", timestamp := 0, text := "x" }]
        "a" "German" { ok := true, status := 200, content := some "  " } =
      ([{ id := "a", timestamp := 0, text := "x" }], Except.ok "") := by
  exact translateTranscript_empty_response "key"
    [{ id := "a", timestamp := 0, text := "x" }] "a" "German"
    { ok := true, status := 200, content := some "  " }
    (by decide) (by decide) rfl (by decide)

/-- C2: with an OPEN socket, `commit()` sends exactly one commit message
when at least one chunk is buffered, zeroing the chunk counter and the
audio-sent flag; with zero buffered chunks it sends nothing and changes
neither; with a non-open socket it sends nothing and changes neither; in
every case it cancels both the deadline timeout and the countdown
interval. -/
theorem commit_contract (s : SysState) :
    (s.wsOpen = true →
      ((commit s).2 = [OutMsg.commitBuffer] ↔
        MIN_CHUNKS_FOR_100MS ≤ s.audioChunksSinceLastCommit)) ∧
    (s.wsOpen = true → MIN_CHUNKS_FOR_100MS ≤ s.audioChunksSinceLastCommit →
      (commit s).1.audioChunksSinceLastCommit = 0 ∧
      (commit s).1.hasSentAudio = false) ∧
    (s.wsOpen = true → s.audioChunksSinceLastCommit < MIN_CHUNKS_FOR_100MS →
      (commit s).2 = [] ∧
      (commit s).1.audioChunksSinceLastCommit = s.audioChunksSinceLastCommit ∧
      (commit s).1.hasSentAudio = s.hasSentAudio) ∧
    (s.wsOpen = false →
      (commit s).2 = [] ∧
      (commit s).1.audioChunksSinceLastCommit = s.audioChunksSinceLastCommit ∧
      (commit s).1.hasSentAudio = s.hasSentAudio) ∧
    ((commit s).1.commitTimeoutSet = false ∧
      (commit s).1.countdownIntervalSet = false) := by
  unfold commit commitCore clearCountdown MIN_CHUNKS_FOR_100MS
  by_cases hw : s.wsOpen = true <;>
    by_cases hc : 1 ≤ s.audioChunksSinceLastCommit <;>
      simp_all [MIN_CHUNKS_FOR_100MS]

/-- Witness for C2 at concrete states: one buffered chunk on an open
socket sends the commit message; zero chunks sends nothing; both cancel
the timers. -/
theorem commit_contract_witness :
    (commit ⟨true, true, 1, true, true, true, 7, false⟩).2 =
      [OutMsg.commitBuffer] ∧
    (commit ⟨true, true, 0, false, true, true, 7, false⟩).2 = [] ∧
    (commit ⟨true, true, 1, true, true, true, 7, false⟩).1.commitTimeoutSet =
      false := by
  refine ⟨?_, ?_, ?_⟩
  · exact ((commit_contract _).1 rfl).mpr (by decide)
  · exact ((commit_contract _).2.2.1 rfl (by decide)).1
  · exact ((commit_contract _).2.2.2.2).1

/-- Every auto-translation request the dispatch produces targets the
transcript it was given and carries the source text it was given. -/
lemma mem_autoTranslationFor {la lb : Option String} {tid src d : String}
    {r : AutoTranslationRequest}
    (h : r ∈ autoTranslationFor la lb tid src d) :
    r.transcriptId = tid ∧ r.sourceText = src := by
  unfold autoTranslationFor at h
  cases hm : mapToLanguageCode d with
  | none => rw [hm] at h; simp at h
  | some m =>
    rw [hm] at h
    rcases la with _ | la <;> rcases lb with _ | lb <;>
      simp only [truthyStr] at h <;> (repeat' split at h) <;> simp_all

/-- C6: both translation paths translate from `originalText` when present
and from the current `text` otherwise.  For the explicit path the text
sent to the service (`textToTranslateOf`, line 423) is exactly that of the
transcript found by id; for the auto path every request scheduled by the
completed-message handler carries the source of the freshly prepended
transcript, whose `originalText` is unset, so its source is likewise
`originalText`-if-present-else-`text`. -/
theorem translation_source_choice :
    (∀ (ts : List Transcript) (tid : String) (t : Transcript),
      ts.find? (fun u => u.id = tid) = some t →
      t.originalText ≠ some "" →
      textToTranslateOf ts tid = some (t.originalText.getD t.text)) ∧
    (∀ (det : String → String) (la lb : Option String) (newId : String)
      (now : Nat) (lp : Option (List TokenLogprob)) (msg : String)
      (st : HandlerState) (r : AutoTranslationRequest),
      r ∈ (handleCompleted det la lb newId now lp msg st).2 →
      ∃ nt : Transcript,
        (handleCompleted det la lb newId now lp msg st).1.finalTranscripts =
          nt :: st.finalTranscripts ∧
        r.transcriptId = nt.id ∧
        r.sourceText = nt.originalText.getD nt.text) := by
  constructor
  · intro ts tid t hfind hne
    unfold textToTranslateOf
    rw [hfind]
    cases ho : t.originalText with
    | none => simp [jsOrElse, ho]
    | some s =>
      have hs : s ≠ "" := fun hc => hne (by rw [ho, hc])
      simp [jsOrElse, ho, hs]
  · intro det la lb newId now lp msg st r hr
    unfold handleCompleted at hr ⊢
    by_cases hmsg : jsTrim msg = ""
    · rw [if_pos hmsg] at hr
      simp at hr
    · rw [if_neg hmsg] at hr
      rw [if_neg hmsg]
      refine ⟨_, rfl, ?_, ?_⟩
      · exact (mem_autoTranslationFor hr).1
      · simpa using (mem_autoTranslationFor hr).2

/-- Witness for C6: an explicit translate of a transcript with stored
`originalText` sources from it, and a concrete completed event schedules
its auto-translation from the new transcript's own text. -/
theorem translation_source_choice_witness :
    textToTranslateOf
        [{ id := "a", timestamp := 0, text := "Hallo (German)",
           originalText := some "hello" }] "a" = some "hello" ∧
    (∃ nt : Transcript,
      (handleCompleted (fun _ => "deu") (some "de") (some "en") "t1" 5 none
          "hallo" ⟨[], "h"⟩).1.finalTranscripts = [nt] ∧
      (⟨"t1", "hallo", "en", "English"⟩ : AutoTranslationRequest).transcriptId
          = nt.id ∧
      (⟨"t1", "hallo", "en", "English"⟩ : AutoTranslationRequest).sourceText
          = nt.originalText.getD nt.text) := by
  constructor
  · exact translation_source_choice.1
      [{ id := "a", timestamp := 0, text := "Hallo (German)",
         originalText := some "hello" }] "a"
      { id := "a", timestamp := 0, text := "Hallo (German)",
        originalText := some "hello" } (by decide) (by decide)
  · exact translation_source_choice.2 (fun _ => "deu") (some "de") (some "en")
      "t1" 5 none "hallo" ⟨[], "h"⟩ ⟨"t1", "hallo", "en", "English"⟩
      (by decide)

/-- C4: auto-translation dispatch.  With both languages configured and
different, a detected code bridging to Language A schedules exactly one
translation toward Language B's display name, and symmetrically; a
detected code absent from the bridging table, or bridging to neither
configured language, schedules none. -/
theorem auto_translation_scheduling (la lb d tid src : String) :
    (mapToLanguageCode d = some la → la ≠ "" → lb ≠ "" → la ≠ lb →
      autoTranslationFor (some la) (some lb) tid src d =
        [⟨tid, src, lb, getLanguageNameFromCode lb⟩]) ∧
    (mapToLanguageCode d = some lb → la ≠ "" → lb ≠ "" → la ≠ lb →
      autoTranslationFor (some la) (some lb) tid src d =
        [⟨tid, src, la, getLanguageNameFromCode la⟩]) ∧
    (mapToLanguageCode d = none →
      ∀ A B : Option String, autoTranslationFor A B tid src d = []) ∧
    (∀ m, mapToLanguageCode d = some m → m ≠ la → m ≠ lb →
      autoTranslationFor (some la) (some lb) tid src d = []) := by
  refine ⟨?_, ?_, ?_, ?_⟩
  · intro hm ha hb hne
    unfold autoTranslationFor
    rw [hm]
    simp [truthyStr, ha, hb, hne]
  · intro hm ha hb hne
    unfold autoTranslationFor
    rw [hm]
    simp [truthyStr, ha, hb]
  · intro hm A B
    unfold autoTranslationFor
    rw [hm]
  · intro m hm hma hmb
    unfold autoTranslationFor
    rw [hm]
    simp [truthyStr, hma, hmb]

/-- Witness for C4: German detected with Languages de/en configured
schedules exactly the translation toward English; English detected
schedules the one toward German; an unbridged code and a third language
schedule none. -/
theorem auto_translation_scheduling_witness :
    autoTranslationFor (some "de") (some "en") "t1" "hallo" "deu" =
      [⟨"t1", "hallo", "en", "English"⟩] ∧
    autoTranslationFor (some "de") (some "en") "t1" "hello" "eng" =
      [⟨"t1", "hello", "de", "German"⟩] ∧
    autoTranslationFor (some "de") (some "en") "t1" "x" "zzz" = [] ∧
    autoTranslationFor (some "de") (some "en") "t1" "bonjour" "fra" = [] := by
  refine ⟨?_, ?_, ?_, ?_⟩
  · exact (auto_translation_scheduling "de" "en" "deu" "t1" "hallo").1
      (by decide) (by decide) (by decide) (by decide)
  · exact (auto_translation_scheduling "de" "en" "eng" "t1" "hello").2.1
      (by decide) (by decide) (by decide) (by decide)
  · exact (auto_translation_scheduling "de" "en" "zzz" "t1" "x").2.2.1
      (by decide) (some "de") (some "en")
  · exact (auto_translation_scheduling "de" "en" "fra" "t1" "bonjour").2.2.2
      "fr" (by decide) (by decide) (by decide)

/-- Length bookkeeping of one completed event: a non-empty trimmed text
adds one record, an empty one adds none. -/
lemma handleCompleted_length (det : String → String)
    (la lb : Option String) (newId : String) (now : Nat)
    (lp : Option (List TokenLogprob)) (msg : String) (st : HandlerState) :
    (handleCompleted det la lb newId now lp msg st).1.finalTranscripts.length =
      (if jsTrim msg = "" then 0 else 1) + st.finalTranscripts.length := by
  unfold handleCompleted
  split <;> simp_all <;> omega

/-- C3: a finalized event with non-empty trimmed text creates exactly one
new `Transcript` prepended to the front of the list and clears the interim
buffer; an event with empty trimmed text creates nothing and leaves the
handler state unchanged; over any event sequence the final list length is
the number of non-empty events plus the starting length. -/
theorem completed_events_accounting :
    (∀ (det : String → String) (la lb : Option String) (newId : String)
      (now : Nat) (lp : Option (List TokenLogprob)) (msg : String)
      (st : HandlerState), jsTrim msg ≠ "" →
      ∃ nt : Transcript,
        (handleCompleted det la lb newId now lp msg st).1 =
          ⟨nt :: st.finalTranscripts, ""⟩ ∧ nt.text = jsTrim msg) ∧
    (∀ (det : String → String) (la lb : Option String) (newId : String)
      (now : Nat) (lp : Option (List TokenLogprob)) (msg : String)
      (st : HandlerState), jsTrim msg = "" →
      handleCompleted det la lb newId now lp msg st = (st, [])) ∧
    (∀ (det : String → String) (la lb : Option String) (ids : Nat → String)
      (stamps : Nat → Nat) (lps : Nat → Option (List TokenLogprob))
      (events : List String) (i : Nat) (st : HandlerState),
      (runCompletedEventsFrom det la lb ids stamps lps i events
          st).finalTranscripts.length =
        countNonEmptyEvents events + st.finalTranscripts.length) := by
  refine ⟨?_, ?_, ?_⟩
  · intro det la lb newId now lp msg st hne
    unfold handleCompleted
    rw [if_neg hne]
    exact ⟨_, rfl, rfl⟩
  · intro det la lb newId now lp msg st he
    unfold handleCompleted
    rw [if_pos he]
  · intro det la lb ids stamps lps events
    induction events with
    | nil => intro i st; simp [runCompletedEventsFrom, countNonEmptyEvents]
    | cons ev rest ih =>
      intro i st
      rw [runCompletedEventsFrom, ih]
      rw [handleCompleted_length]
      simp only [countNonEmptyEvents, List.filter_cons]
      split <;> simp_all <;> omega

/-- Witness for C3: a two-event run (one non-empty, one blank) from the
empty state yields exactly one transcript, the non-empty event prepends
and clears the interim buffer, and the blank event is a no-op. -/
theorem completed_events_accounting_witness :
    (∃ nt : Transcript,
      (handleCompleted (fun _ => "eng") none none "t1" 3 none " hi "
          ⟨[], "partial"⟩).1 = ⟨[nt], ""⟩ ∧ nt.text = jsTrim " hi ") ∧
    handleCompleted (fun _ => "eng") none none "t2" 4 none "  "
        ⟨[], "partial"⟩ = (⟨[], "partial"⟩, []) ∧
    (runCompletedEventsFrom (fun _ => "eng") none none (fun i => toString i)
        (fun i => i) (fun _ => none) 0 [" hi ", "  "]
        ⟨[], ""⟩).finalTranscripts.length = 1 := by
  refine ⟨?_, ?_, ?_⟩
  · exact completed_events_accounting.1 (fun _ => "eng") none none "t1" 3 none
      " hi " ⟨[], "partial"⟩ (by decide)
  · exact completed_events_accounting.2.1 (fun _ => "eng") none none "t2" 4
      none "  " ⟨[], "partial"⟩ (by decide)
  · have h := completed_events_accounting.2.2 (fun _ => "eng") none none
      (fun i => toString i) (fun i => i) (fun _ => none) [" hi ", "  "] 0
      ⟨[], ""⟩
    simpa [countNonEmptyEvents] using h

/-- The rewritten display text `"<translated> (<target>)"` is never the
empty string. -/
lemma translated_display_ne_empty (tr tg : String) :
    tr ++ " (" ++ tg ++ ")" ≠ "" := by
  intro h
  have h2 := congrArg String.length h
  simp [String.length_append] at h2
  exact absurd h2.2 (by decide)

/-- Per-item translation update keeps a non-empty stored `originalText`
untouched: `item.originalText || item.text` returns the stored value. -/
lemma translationItemUpdate_originalText_stable (tid tr tg : String)
    (a : Transcript) (s : String) (ha : a.originalText = some s)
    (hs : s ≠ "") :
    (translationItemUpdate tid tr tg a).originalText = some s := by
  unfold translationItemUpdate
  split
  · simp [jsOrElse, ha, hs]
  · exact ha

/-- Position-wise view of the list-level translation update. -/
lemma applyTranslationUpdate_getElem (tid tr tg : String)
    (ts : List Transcript) (i : Nat) :
    (applyTranslationUpdate tid tr tg ts)[i]? =
      if tr = "" then ts[i]?
      else ts[i]?.map (translationItemUpdate tid tr tg) := by
  unfold applyTranslationUpdate
  split
  · rfl
  · exact List.getElem?_map (translationItemUpdate tid tr tg) ts i

/-- One translation completion keeps every non-empty stored
`originalText` at its position. -/
lemma applyTranslationUpdate_originalText_stable (tid tr tg : String)
    (ts : List Transcript) (i : Nat) (a : Transcript) (s : String)
    (h : ts[i]? = some a) (ha : a.originalText = some s) (hs : s ≠ "") :
    ∃ b, (applyTranslationUpdate tid tr tg ts)[i]? = some b ∧
      b.originalText = some s := by
  rw [applyTranslationUpdate_getElem]
  split
  · exact ⟨a, h, ha⟩
  · exact ⟨translationItemUpdate tid tr tg a, by rw [h]; rfl,
      translationItemUpdate_originalText_stable tid tr tg a s ha hs⟩

/-- C1: across any sequence of translation completions (auto or explicit,
in any order), a transcript whose `originalText` is set to a non-empty
value keeps exactly that value; and a single completion hitting a
transcript with unset `originalText` either leaves it untouched or sets
`originalText` to the pre-translation `text` while rewriting the display
text — so the field is written at most once.  The two closing conjuncts
discharge the non-emptiness side conditions for every transcript the hook
ever creates: freshly created transcripts have unset `originalText` and
non-empty `text`, and the updates preserve non-empty `text`. -/
theorem originalText_write_once :
    (∀ (ops : List (String × String × String)) (ts : List Transcript)
      (i : Nat) (a b : Transcript) (s : String),
      ts[i]? = some a → (runTranslations ops ts)[i]? = some b →
      a.originalText = some s → s ≠ "" → b.originalText = some s) ∧
    (∀ (tid tr tg : String) (ts : List Transcript) (i : Nat)
      (a b : Transcript),
      ts[i]? = some a → (applyTranslationUpdate tid tr tg ts)[i]? = some b →
      a.originalText = none →
      b = a ∨ (b.originalText = some a.text ∧
        b.text = tr ++ " (" ++ tg ++ ")")) ∧
    (∀ (det : String → String) (la lb : Option String) (newId : String)
      (now : Nat) (lp : Option (List TokenLogprob)) (msg : String)
      (st : HandlerState) (nt : Transcript),
      (handleCompleted det la lb newId now lp msg st).1.finalTranscripts =
        nt :: st.finalTranscripts →
      nt.originalText = none ∧ nt.text ≠ "") ∧
    (∀ (tid tr tg : String) (a : Transcript), a.text ≠ "" →
      (translationItemUpdate tid tr tg a).text ≠ "") := by
  refine ⟨?_, ?_, ?_, ?_⟩
  · intro ops
    induction ops with
    | nil =>
      intro ts i a b s ha hb hos hs
      rw [show runTranslations [] ts = ts from rfl, ha] at hb
      cases hb
      exact hos
    | cons op rest ih =>
      intro ts i a b s ha hb hos hs
      obtain ⟨a1, ha1, hoa1⟩ :=
        applyTranslationUpdate_originalText_stable op.1 op.2.1 op.2.2 ts i a s
          ha hos hs
      exact ih _ i a1 b s ha1 hb hoa1 hs
  · intro tid tr tg ts i a b ha hb hnone
    rw [applyTranslationUpdate_getElem] at hb
    by_cases htr : tr = ""
    · rw [if_pos htr, ha] at hb
      cases hb
      left
      rfl
    · rw [if_neg htr, ha] at hb
      cases hb
      unfold translationItemUpdate
      split
      · right
        constructor
        · simp [jsOrElse, hnone]
        · rfl
      · left
        rfl
  · intro det la lb newId now lp msg st nt hlist
    unfold handleCompleted at hlist
    split at hlist
    · exact absurd (congrArg List.length hlist) (by simp)
    · rename_i hmsg
      injection hlist with h1 h2
      exact ⟨by rw [← h1], by rw [← h1]; exact hmsg⟩
  · intro tid tr tg a hne
    unfold translationItemUpdate
    split
    · exact translated_display_ne_empty tr tg
    · exact hne

/-- Witness for C1 at concrete inputs: a stored `originalText` survives a
further translation, and a first translation stores the pre-translation
text. -/
theorem originalText_write_once_witness :
    Transcript.originalText
        { id := "a", timestamp := 0, text := "Bonjour (French)",
          originalText := some "hello" } = some "hello" ∧
    (({ id := "a", timestamp := 0, text := "Hallo (German)",
        originalText := some "hello" } : Transcript) =
        { id := "a", timestamp := 0, text := "hello" } ∨
      (Transcript.originalText
          { id := "a", timestamp := 0, text := "Hallo (German)",
            originalText := some "hello" } =
        some (Transcript.text { id := "a", timestamp := 0, text := "hello" }) ∧
       Transcript.text
          { id := "a", timestamp := 0, text := "Hallo (German)",
            originalText := some "hello" } =
        "Hallo" ++ " (" ++ "German" ++ ")")) := by
  constructor
  · exact originalText_write_once.1 [("a", "Bonjour", "French")]
      [{ id := "a", timestamp := 0, text := "Hallo (German)",
         originalText := some "hello" }] 0
      { id := "a", timestamp := 0, text := "Hallo (German)",
        originalText := some "hello" }
      { id := "a", timestamp := 0, text := "Bonjour (French)",
        originalText := some "hello" } "hello"
      (by decide) (by decide) rfl (by decide)
  · exact originalText_write_once.2.1 "a" "Hallo" "German"
      [{ id := "a", timestamp := 0, text := "hello" }] 0
      { id := "a", timestamp := 0, text := "hello" }
      { id := "a", timestamp := 0, text := "Hallo (German)",
        originalText := some "hello" }
      (by decide) (by decide) rfl

/-- Invariant of the session/timer machine: the displayed countdown is
never negative, and the deadline timeout is only ever scheduled while the
recording flag holds (every path that clears the flag also clears the
timeout). -/
def SchedInv (s : SysState) : Prop :=
  0 ≤ s.autoCommitCountdown ∧
    (s.commitTimeoutSet = true → s.isRecording = true)

/-- Preservation of `SchedInv` by every serialized event. -/
lemma schedInv_step (s : SysState) (e : Event) (h : SchedInv s) :
    SchedInv (sysStep s e).1 := by
  obtain ⟨h1, h2⟩ := h
  cases e <;>
    simp only [sysStep, startAutoCommitTimer, resetAutoCommitTimer,
      clearCountdown, commit, commitCore, deadlineHandler, countdownTick,
      SchedInv] <;>
    (repeat' split) <;> simp_all <;> omega

/-- Preservation of `SchedInv` along any run. -/
lemma schedInv_runFrom (evs : List Event) (s : SysState) (h : SchedInv s) :
    SchedInv (runFrom s evs) := by
  induction evs generalizing s with
  | nil => exact h
  | cons e rest ih => exact ih _ (schedInv_step s e h)

/-- Every state reachable from the initial hook state satisfies
`SchedInv`. -/
lemma schedInv_run (evs : List Event) : SchedInv (run evs) :=
  schedInv_runFrom evs initState ⟨le_refl 0, by intro h; cases h⟩

/-- A deadline-fire step always leaves the deadline timeout cleared,
whether or not the callback actually ran. -/
lemma deadlineFire_clears (s : SysState) :
    (sysStep s Event.deadlineFire).1.commitTimeoutSet = false := by
  simp only [sysStep, deadlineHandler, clearCountdown, commitCore]
  (repeat' split) <;> simp_all

/-- Non-arming events never schedule the deadline timeout. -/
lemma notArming_keeps_clear (s : SysState) (e : Event)
    (he : armingEvent e = false) (h : s.commitTimeoutSet = false) :
    (sysStep s e).1.commitTimeoutSet = false := by
  cases e <;>
    simp only [armingEvent] at he <;>
    simp only [sysStep, startAutoCommitTimer, resetAutoCommitTimer,
      clearCountdown, commit, commitCore, deadlineHandler, countdownTick] <;>
    (repeat' split) <;> simp_all

/-- With the deadline timeout unscheduled and no arming event arriving,
no deadline action ever runs. -/
lemma deadlineActionCount_zero (evs : List Event) (s : SysState)
    (h : ∀ e ∈ evs, armingEvent e = false)
    (hs : s.commitTimeoutSet = false) :
    deadlineActionCount s evs = 0 := by
  induction evs generalizing s with
  | nil => rfl
  | cons e rest ih =>
    rw [deadlineActionCount]
    rw [if_neg (by simp [hs]), ih _ (fun x hx => h x (List.mem_cons_of_mem e hx))
      (notArming_keeps_clear s e (h e (List.mem_cons_self e rest)) hs)]

/-- C7: the Commit Scheduler's countdown is never negative in any
reachable state; one tick decrements the countdown by one and floors at
zero; and between arming events at most one deadline action runs, i.e.
reaching the deadline fires exactly once per arm cycle. -/
theorem scheduler_countdown_spec :
    (∀ evs : List Event, 0 ≤ (run evs).autoCommitCountdown) ∧
    (∀ c : Int, 0 ≤ c → 0 ≤ countdownTick c ∧
      (1 < c → countdownTick c = c - 1) ∧ (c ≤ 1 → countdownTick c = 0)) ∧
    (∀ (s : SysState) (evs : List Event),
      (∀ e ∈ evs, armingEvent e = false) →
      deadlineActionCount s evs ≤ 1) := by
  refine ⟨?_, ?_, ?_⟩
  · intro evs
    exact (schedInv_run evs).1
  · intro c hc
    unfold countdownTick
    exact ⟨by split <;> omega, fun h => by split <;> omega,
      fun h => by split <;> omega⟩
  · intro s evs h
    induction evs generalizing s with
    | nil => simp [deadlineActionCount]
    | cons e rest ih =>
      rw [deadlineActionCount]
      by_cases hfire : e = Event.deadlineFire ∧ s.commitTimeoutSet
      · rw [if_pos hfire]
        have hclear : (sysStep s e).1.commitTimeoutSet = false := by
          rw [hfire.1]; exact deadlineFire_clears s
        rw [deadlineActionCount_zero rest _
          (fun x hx => h x (List.mem_cons_of_mem e hx)) hclear]
      · rw [if_neg hfire]
        simpa using ih (sysStep s e).1
          (fun x hx => h x (List.mem_cons_of_mem e hx))

/-- Witness for C7: a concrete run (open, one tick, deadline) keeps the
countdown at a non-negative value; a tick from 10 gives 9 and from 1
gives 0; a concrete non-arming suffix admits at most one deadline
action. -/
theorem scheduler_countdown_spec_witness :
    0 ≤ (run [Event.startNewSession, Event.tick,
      Event.deadlineFire]).autoCommitCountdown ∧
    (0 ≤ countdownTick 10 ∧ (1 < (10 : Int) → countdownTick 10 = 9) ∧
      ((10 : Int) ≤ 1 → countdownTick 10 = 0)) ∧
    deadlineActionCount ⟨true, true, 3, true, true, true, 4, false⟩
      [Event.deadlineFire, Event.tick, Event.deadlineFire,
       Event.stopRecording] ≤ 1 := by
  refine ⟨?_, ?_, ?_⟩
  · exact scheduler_countdown_spec.1
      [Event.startNewSession, Event.tick, Event.deadlineFire]
  · have h := scheduler_countdown_spec.2.1 10 (by decide)
    exact ⟨h.1, fun _ => by rw [h.2.1 (by decide)]; decide, h.2.2⟩
  · exact scheduler_countdown_spec.2.2
      ⟨true, true, 3, true, true, true, 4, false⟩
      [Event.deadlineFire, Event.tick, Event.deadlineFire,
       Event.stopRecording] (by decide)

/-- C8: in every reachable state the deadline timeout is scheduled only
while recording, so a deadline can never fire with the recording flag
down; a fire of an unscheduled deadline is a silent no-op sending no
message, hence a deadline firing while not recording never sends a
commit; when the deadline callback does run it schedules the 100 ms grace
re-arm only if still recording, and the grace callback re-arms the
scheduler only if still recording. -/
theorem deadline_only_while_recording :
    (∀ evs : List Event, (run evs).commitTimeoutSet = true →
      (run evs).isRecording = true) ∧
    (∀ s : SysState, s.commitTimeoutSet = false →
      sysStep s Event.deadlineFire = (s, [])) ∧
    (∀ evs : List Event, (run evs).isRecording = false →
      sysStep (run evs) Event.deadlineFire = (run evs, [])) ∧
    (∀ s : SysState, s.commitTimeoutSet = true → s.gracePending = false →
      (sysStep s Event.deadlineFire).1.gracePending = s.isRecording) ∧
    (∀ s : SysState, s.gracePending = true → s.isRecording = false →
      sysStep s Event.graceFire = ({ s with gracePending := false }, [])) ∧
    (∀ s : SysState, s.gracePending = true → s.isRecording = true →
      sysStep s Event.graceFire =
        (startAutoCommitTimer { s with gracePending := false }, [])) := by
  have hnoop : ∀ s : SysState, s.commitTimeoutSet = false →
      sysStep s Event.deadlineFire = (s, []) := by
    intro s hs
    simp [sysStep, hs]
  refine ⟨?_, hnoop, ?_, ?_, ?_, ?_⟩
  · intro evs
    exact (schedInv_run evs).2
  · intro evs hrec
    apply hnoop
    by_contra hset
    rw [Bool.not_eq_false] at hset
    rw [(schedInv_run evs).2 hset] at hrec
    cases hrec
  · intro s hset hgrace
    simp only [sysStep, hset, if_true, deadlineHandler, clearCountdown,
      commitCore]
    (repeat' split) <;> simp_all
  · intro s hp hrec
    simp [sysStep, hp, hrec]
  · intro s hp hrec
    simp [sysStep, hp, hrec]

/-- Witness for C8 at concrete inputs: after opening a session and
stopping, the machine is not recording and a deadline fire is a silent
no-op; a pending grace callback while not recording only clears its flag;
while recording it re-arms. -/
theorem deadline_only_while_recording_witness :
    (run [Event.startNewSession, Event.audioChunk]).isRecording = true ∧
    sysStep ⟨true, false, 0, false, false, false, 0, false⟩
      Event.deadlineFire =
      (⟨true, false, 0, false, false, false, 0, false⟩, []) ∧
    sysStep (run [Event.startNewSession, Event.stopRecording])
      Event.deadlineFire =
      (run [Event.startNewSession, Event.stopRecording], []) ∧
    (sysStep ⟨true, true, 2, true, true, true, 4, false⟩
      Event.deadlineFire).1.gracePending = true ∧
    sysStep ⟨true, false, 0, false, false, false, 0, true⟩ Event.graceFire =
      (⟨true, false, 0, false, false, false, 0, false⟩, []) := by
  refine ⟨?_, ?_, ?_, ?_, ?_⟩
  · exact deadline_only_while_recording.1
      [Event.startNewSession, Event.audioChunk] (by decide)
  · exact deadline_only_while_recording.2.1
      ⟨true, false, 0, false, false, false, 0, false⟩ rfl
  · exact deadline_only_while_recording.2.2.1
      [Event.startNewSession, Event.stopRecording] (by decide)
  · have h := deadline_only_while_recording.2.2.2.1
      ⟨true, true, 2, true, true, true, 4, false⟩ rfl rfl
    simpa using h
  · have h := deadline_only_while_recording.2.2.2.2.1
      ⟨true, false, 0, false, false, false, 0, true⟩ rfl rfl
    simpa using h

end BabelScribe
